import Mathlib

/-!
Shallow embedding of the confetti particle engine (`src/confetti.ts`,
first snapshot) into Lean 4.  JavaScript numbers are modelled as `ℚ`;
`Math.cos`, `Math.sin` and `Math.PI` are abstracted into a `JsMath`
structure (the claims under study do not depend on their analytic
values), and each `Math.random()` call is an explicit draw from a
stream `rand : ℕ → ℚ` of values assumed to lie in `[0,1)` where that
matters.  Mutation of a particle becomes explicit state passing:
`updateParticle` returns the new particle together with the boolean the
source returns.
-/

namespace Confetti

/-- The `Math.cos` / `Math.sin` / `Math.PI` interface of the host.
Kept abstract: the claims are about the algebra of the engine, not
about trigonometry. -/
structure JsMath where
  cos : ℚ → ℚ
  sin : ℚ → ℚ
  pi : ℚ

/-- Bitmap payload of a `BitmapShape` (`ImageBitmap` handle): only the
natural dimensions are observable to the engine. -/
structure BitmapData where
  width : ℚ
  height : ℚ
deriving DecidableEq

/-- `type Shape = "square" | "circle" | "star" | PathShape | BitmapShape`. -/
inductive Shape where
  | square : Shape
  | circle : Shape
  | star : Shape
  | path (path : String) (matrix : List ℚ) : Shape
  | bitmap (bitmap : BitmapData) (matrix : List ℚ) : Shape
deriving DecidableEq

/-- The `RGB` record of the source.  A channel is `none` when the
source's `parseInt` would return `NaN`. -/
structure RGB where
  r : Option ℕ
  g : Option ℕ
  b : Option ℕ
deriving DecidableEq

/-- `Required<Options>` after merging with the defaults: every field
resolved.  `origin` is kept as the pair of possibly-absent coordinates
the source stores (`{ x: undefined, y: undefined }` in the defaults). -/
structure ResolvedOptions where
  particleCount : ℕ
  angle : ℚ
  spread : ℚ
  startVelocity : ℚ
  decay : ℚ
  gravity : ℚ
  drift : ℚ
  ticks : ℚ
  x : ℚ
  y : ℚ
  shapes : List Shape
  zIndex : ℤ
  colors : List String
  disableForReducedMotion : Bool
  scalar : ℚ
  flat : Bool
  originX : Option ℚ
  originY : Option ℚ
deriving DecidableEq

/-- The `Particle` interface of the source, field for field. -/
structure Particle where
  x : ℚ
  y : ℚ
  wobble : ℚ
  wobbleSpeed : ℚ
  velocity : ℚ
  angle2D : ℚ
  tiltAngle : ℚ
  color : RGB
  shape : Shape
  tick : ℚ
  totalTicks : ℚ
  decay : ℚ
  drift : ℚ
  random : ℚ
  tiltSin : ℚ
  tiltCos : ℚ
  wobbleX : ℚ
  wobbleY : ℚ
  gravity : ℚ
  ovalScalar : ℚ
  scalar : ℚ
  flat : Bool
deriving DecidableEq

/-- Value of a hexadecimal digit, `none` for a non-digit. -/
def hexDigitVal (c : Char) : Option ℕ :=
  if '0' ≤ c ∧ c ≤ '9' then some (c.toNat - '0'.toNat)
  else if 'a' ≤ c ∧ c ≤ 'f' then some (c.toNat - 'a'.toNat + 10)
  else if 'A' ≤ c ∧ c ≤ 'F' then some (c.toNat - 'A'.toNat + 10)
  else none

/-- Accumulate the maximal hexadecimal-digit prefix of a character
list, as `parseInt(·, 16)` does once it has seen a first digit. -/
def hexPrefixVal : List Char → ℕ → ℕ
  | [], acc => acc
  | c :: rest, acc =>
    match hexDigitVal c with
    | some d => hexPrefixVal rest (16 * acc + d)
    | none => acc

/-- `parseInt(s, 16)` on the two-character slices the engine feeds it:
`none` models `NaN` (no leading hexadecimal digit), otherwise the value
of the maximal digit prefix. -/
def jsParseIntHex (s : String) : Option ℕ :=
  match s.toList with
  | [] => none
  | c :: _ =>
    match hexDigitVal c with
    | none => none
    | some _ => some (hexPrefixVal s.toList 0)

/-- `s.slice(a, b)` for `0 ≤ a ≤ b` (the only way the engine calls it). -/
def jsSlice (s : String) (a b : ℕ) : String :=
  ⟨(s.toList.drop a).take (b - a)⟩

/-- `Math.floor(r * len)` used as a palette / shape index. -/
def randIndex (r : ℚ) (len : ℕ) : ℕ :=
  Nat.floor (r * (len : ℚ))

/-- `createParticle(options)` (source lines 183-234).  `rand n` is the
value of the `(n+1)`-th `Math.random()` call of the body, in source
evaluation order: wobble, wobbleSpeed, velocity, angle2D, tiltAngle,
the three colour-channel indices, the shape index, and the jitter seed.
Out-of-range palette / shape indexing (impossible for draws in `[0,1)`
and a non-empty list) falls back to `""` / `Shape.square` where the
source would fault. -/
def createParticle (m : JsMath) (rand : ℕ → ℚ) (options : ResolvedOptions) :
    Particle :=
  let radAngle := options.angle * (m.pi / 180)
  let radSpread := options.spread * (m.pi / 180)
  { x := options.x
    y := options.y
    wobble := rand 0 * 10
    wobbleSpeed := min 0.11 (rand 1 * 0.1 + 0.05)
    velocity := options.startVelocity * 0.5 + rand 2 * options.startVelocity
    angle2D := -radAngle + (0.5 * radSpread - rand 3 * radSpread)
    tiltAngle := (rand 4 * (0.75 - 0.25) + 0.25) * m.pi
    color :=
      { r := jsParseIntHex
          (jsSlice (options.colors.getD (randIndex (rand 5) options.colors.length) "") 1 3)
        g := jsParseIntHex
          (jsSlice (options.colors.getD (randIndex (rand 6) options.colors.length) "") 3 5)
        b := jsParseIntHex
          (jsSlice (options.colors.getD (randIndex (rand 7) options.colors.length) "") 5 7) }
    shape := options.shapes.getD (randIndex (rand 8) options.shapes.length) Shape.square
    tick := 0
    totalTicks := options.ticks
    decay := options.decay
    drift := options.drift
    random := rand 9 + 2
    tiltSin := 0
    tiltCos := 0
    wobbleX := 0
    wobbleY := 0
    gravity := options.gravity * 3
    ovalScalar := 0.6
    scalar := options.scalar
    flat := options.flat }

/-- `updateParticle(particle)` (source lines 236-264).  `r` is the one
`Math.random()` draw of the non-flat branch (ignored when `flat`),
`innerHeight` is `window.innerHeight`.  Returns the mutated particle
and the boolean the source returns.  The source's
`particle.tick++ < particle.totalTicks` compares the PRE-increment tick
and then increments, which the last two lines reproduce. -/
def updateParticle (m : JsMath) (r : ℚ) (innerHeight : ℚ) (p : Particle) :
    Particle × Bool :=
  let x := p.x + m.cos p.angle2D * p.velocity + p.drift
  let y := p.y + m.sin p.angle2D * p.velocity + p.gravity
  let velocity := p.velocity * p.decay
  let p1 : Particle :=
    if p.flat then
      { p with
        x := x, y := y, velocity := velocity
        wobble := 0
        wobbleX := x + 10 * p.scalar
        wobbleY := y + 10 * p.scalar
        tiltSin := 0
        tiltCos := 0
        random := 1 }
    else
      let wobble := p.wobble + p.wobbleSpeed
      let tiltAngle := p.tiltAngle + 0.1
      { p with
        x := x, y := y, velocity := velocity
        wobble := wobble
        wobbleX := x + 10 * p.scalar * m.cos wobble
        wobbleY := y + 10 * p.scalar * m.sin wobble
        tiltAngle := tiltAngle
        tiltSin := m.sin tiltAngle
        tiltCos := m.cos tiltAngle
        random := r + 2 }
  let alive := decide (p1.tick < p1.totalTicks) && decide (p1.y < innerHeight)
  ({ p1 with tick := p1.tick + 1 }, alive)

/-- `progress` and `opacity` of `renderParticle` (source lines 270-271):
`1 - particle.tick / particle.totalTicks`. -/
def renderOpacity (p : Particle) : ℚ :=
  let progress := p.tick / p.totalTicks
  1 - progress

/-- The particle after `k` successive `updateParticle` calls, call
`k+1` consuming the draw `rand k`. -/
def updates (m : JsMath) (rand : ℕ → ℚ) (innerHeight : ℚ) (p : Particle) :
    ℕ → Particle
  | 0 => p
  | k + 1 => (updateParticle m (rand k) innerHeight (updates m rand innerHeight p k)).1

/-- The boolean returned by call number `k+1` of `updateParticle` in
the iteration of `updates`. -/
def callResult (m : JsMath) (rand : ℕ → ℚ) (innerHeight : ℚ) (p : Particle)
    (k : ℕ) : Bool :=
  (updateParticle m (rand k) innerHeight (updates m rand innerHeight p k)).2

/-- The caller-supplied `Options` object: a field is `none` when absent
(the `{...defaults, ...options}` merge then keeps the default). -/
structure OptionsIn where
  particleCount : Option ℕ := none
  angle : Option ℚ := none
  spread : Option ℚ := none
  startVelocity : Option ℚ := none
  decay : Option ℚ := none
  gravity : Option ℚ := none
  drift : Option ℚ := none
  ticks : Option ℚ := none
  x : Option ℚ := none
  y : Option ℚ := none
  shapes : Option (List Shape) := none
  zIndex : Option ℤ := none
  colors : Option (List String) := none
  disableForReducedMotion : Option Bool := none
  scalar : Option ℚ := none
  flat : Option Bool := none
  originX : Option ℚ := none
  originY : Option ℚ := none
deriving DecidableEq

/-- The `defaults` constant of the source (lines 102-128). -/
def defaults : ResolvedOptions :=
  { particleCount := 50
    angle := 90
    spread := 45
    startVelocity := 45
    decay := 0.9
    gravity := 1
    drift := 0
    ticks := 200
    x := 0.5
    y := 0.5
    shapes := [Shape.square, Shape.circle]
    zIndex := 100
    colors := ["#26ccff", "#a25afd", "#ff5e7e", "#88ff5a", "#fcff42",
               "#ffa62d", "#ff36ff"]
    disableForReducedMotion := false
    scalar := 1
    flat := false
    originX := none
    originY := none }

/-- `{...defaults, ...options}`: an absent caller field keeps the
default. -/
def mergeOptions (o : OptionsIn) : ResolvedOptions :=
  { particleCount := o.particleCount.getD defaults.particleCount
    angle := o.angle.getD defaults.angle
    spread := o.spread.getD defaults.spread
    startVelocity := o.startVelocity.getD defaults.startVelocity
    decay := o.decay.getD defaults.decay
    gravity := o.gravity.getD defaults.gravity
    drift := o.drift.getD defaults.drift
    ticks := o.ticks.getD defaults.ticks
    x := o.x.getD defaults.x
    y := o.y.getD defaults.y
    shapes := o.shapes.getD defaults.shapes
    zIndex := o.zIndex.getD defaults.zIndex
    colors := o.colors.getD defaults.colors
    disableForReducedMotion :=
      o.disableForReducedMotion.getD defaults.disableForReducedMotion
    scalar := o.scalar.getD defaults.scalar
    flat := o.flat.getD defaults.flat
    originX := o.originX
    originY := o.originY }

/-- The module-level mutable state of the engine: `canvas`, `ctx`,
`particles`, `animationFrame` (source lines 155-158).  The canvas and
context handles are tracked as presence booleans, the frame handle as
the scheduled request id. -/
structure SimState where
  canvas : Bool
  ctx : Bool
  particles : List Particle
  animationFrame : Option ℕ
deriving DecidableEq

/-- The Idle state: no canvas, no context, empty particle set, no
scheduled frame. -/
def idleState : SimState :=
  { canvas := false, ctx := false, particles := [], animationFrame := none }

/-- Host-environment facts the entry point consults: whether `window`
exists, whether `matchMedia("(prefers-reduced-motion)")` matches,
whether `canvas.getContext("2d")` yields a context, the viewport size,
the random stream, and the id `requestAnimationFrame` would return. -/
structure Env where
  hasWindow : Bool
  reducedMotionMatches : Bool
  ctxAvailable : Bool
  innerWidth : ℚ
  innerHeight : ℚ
  rand : ℕ → ℚ
  frameId : ℕ

/-- Return value of the entry point: `null` or a resolved promise. -/
inductive ConfettiResult where
  | nullResult : ConfettiResult
  | promiseResult : ConfettiResult
deriving DecidableEq

/-- `origin.x || 0.5` — JavaScript `||` takes the default also for an
explicit `0`. -/
def jsOrHalf : Option ℚ → ℚ
  | none => 0.5
  | some q => if q = 0 then 0.5 else q

/-- `reset()` (source lines 407-418): cancel any scheduled frame, drop
the context and remove the canvas when one exists, clear the
particle set. -/
def reset (s : SimState) : SimState :=
  let s1 :=
    if s.animationFrame.isSome then { s with animationFrame := none } else s
  let s2 := if s1.canvas then { s1 with ctx := false, canvas := false } else s1
  { s2 with particles := [] }

/-- `confetti(options)` (source lines 420-464).  Returns the next state
and the value handed back to the caller.  Branches, in source order:
no `window` → `null`; reduced-motion opt-out → resolved promise;
`createCanvas()` (allocates the canvas when absent); context probe
failing → `null`; otherwise the origin is resolved (`|| 0.5`), scaled
to the viewport, `particleCount` particles are created (particle `i`
consuming draws `10*i .. 10*i+9`), appended, and a frame is scheduled
when none is pending. -/
def confetti (env : Env) (m : JsMath) (opts : OptionsIn) (s : SimState) :
    SimState × ConfettiResult :=
  if env.hasWindow = false then (s, ConfettiResult.nullResult)
  else
    let mo := mergeOptions opts
    if mo.disableForReducedMotion && env.reducedMotionMatches then
      (s, ConfettiResult.promiseResult)
    else
      let s1 : SimState := { s with canvas := true }
      if s1.ctx = false ∧ env.ctxAvailable = false then
        (s1, ConfettiResult.nullResult)
      else
        let s2 := { s1 with ctx := true }
        let px := jsOrHalf mo.originX * env.innerWidth
        let py := jsOrHalf mo.originY * env.innerHeight
        let mo2 := { mo with x := px, y := py }
        let newParticles := (List.range mo.particleCount).map fun i =>
          createParticle m (fun j => env.rand (10 * i + j)) mo2
        let s3 := { s2 with particles := s2.particles ++ newParticles }
        let s4 :=
          if s3.animationFrame.isSome then s3
          else { s3 with animationFrame := some env.frameId }
        (s4, ConfettiResult.promiseResult)

/-! Helper lemmas about single update steps and their iteration. -/

theorem updateParticle_tick (m : JsMath) (r H : ℚ) (p : Particle) :
    ((updateParticle m r H p).1).tick = p.tick + 1 := by
  cases hp : p.flat <;> simp [updateParticle, hp]

theorem updateParticle_totalTicks (m : JsMath) (r H : ℚ) (p : Particle) :
    ((updateParticle m r H p).1).totalTicks = p.totalTicks := by
  cases hp : p.flat <;> simp [updateParticle, hp]

theorem updateParticle_velocity (m : JsMath) (r H : ℚ) (p : Particle) :
    ((updateParticle m r H p).1).velocity = p.velocity * p.decay := by
  cases hp : p.flat <;> simp [updateParticle, hp]

theorem updateParticle_decay (m : JsMath) (r H : ℚ) (p : Particle) :
    ((updateParticle m r H p).1).decay = p.decay := by
  cases hp : p.flat <;> simp [updateParticle, hp]

theorem updateParticle_flatField (m : JsMath) (r H : ℚ) (p : Particle) :
    ((updateParticle m r H p).1).flat = p.flat := by
  cases hp : p.flat <;> simp [updateParticle, hp]

theorem updateParticle_scalar (m : JsMath) (r H : ℚ) (p : Particle) :
    ((updateParticle m r H p).1).scalar = p.scalar := by
  cases hp : p.flat <;> simp [updateParticle, hp]

theorem updateParticle_y (m : JsMath) (r H : ℚ) (p : Particle) :
    ((updateParticle m r H p).1).y =
      p.y + m.sin p.angle2D * p.velocity + p.gravity := by
  cases hp : p.flat <;> simp [updateParticle, hp]

theorem updateParticle_snd (m : JsMath) (r H : ℚ) (p : Particle) :
    (updateParticle m r H p).2 =
      (decide (p.tick < p.totalTicks) &&
        decide (p.y + m.sin p.angle2D * p.velocity + p.gravity < H)) := by
  cases hp : p.flat <;> simp [updateParticle, hp]

theorem updates_tick (m : JsMath) (rand : ℕ → ℚ) (H : ℚ) (p : Particle) :
    ∀ k : ℕ, (updates m rand H p k).tick = p.tick + k
  | 0 => by simp [updates]
  | k + 1 => by
    simp [updates, updateParticle_tick, updates_tick m rand H p k]
    ring

theorem updates_totalTicks (m : JsMath) (rand : ℕ → ℚ) (H : ℚ) (p : Particle) :
    ∀ k : ℕ, (updates m rand H p k).totalTicks = p.totalTicks
  | 0 => rfl
  | k + 1 => by
    simp [updates, updateParticle_totalTicks,
      updates_totalTicks m rand H p k]

theorem updates_decay (m : JsMath) (rand : ℕ → ℚ) (H : ℚ) (p : Particle) :
    ∀ k : ℕ, (updates m rand H p k).decay = p.decay
  | 0 => rfl
  | k + 1 => by
    simp [updates, updateParticle_decay, updates_decay m rand H p k]

theorem updates_velocity (m : JsMath) (rand : ℕ → ℚ) (H : ℚ) (p : Particle) :
    ∀ k : ℕ, (updates m rand H p k).velocity = p.velocity * p.decay ^ k
  | 0 => by simp [updates]
  | k + 1 => by
    rw [updates, updateParticle_velocity, updates_velocity m rand H p k,
      updates_decay m rand H p k]
    ring

theorem updates_flat (m : JsMath) (rand : ℕ → ℚ) (H : ℚ) (p : Particle) :
    ∀ k : ℕ, (updates m rand H p k).flat = p.flat
  | 0 => rfl
  | k + 1 => by
    simp [updates, updateParticle_flatField, updates_flat m rand H p k]

theorem updates_scalar (m : JsMath) (rand : ℕ → ℚ) (H : ℚ) (p : Particle) :
    ∀ k : ℕ, (updates m rand H p k).scalar = p.scalar
  | 0 => rfl
  | k + 1 => by
    simp [updates, updateParticle_scalar, updates_scalar m rand H p k]

/-- Wobble fields written by the flat branch of one update step. -/
theorem updateParticle_flat_wobble (m : JsMath) (r H : ℚ) (p : Particle)
    (hp : p.flat = true) :
    ((updateParticle m r H p).1).wobble = 0 ∧
    ((updateParticle m r H p).1).wobbleX =
      ((updateParticle m r H p).1).x + 10 * p.scalar ∧
    ((updateParticle m r H p).1).wobbleY =
      ((updateParticle m r H p).1).y + 10 * p.scalar := by
  simp [updateParticle, hp]

/-- A random index built from a draw in `[0,1)` is in range. -/
theorem randIndex_lt (r : ℚ) (len : ℕ) (h0 : 0 ≤ r) (h1 : r < 1)
    (hlen : 0 < len) : randIndex r len < len := by
  have hl : (0 : ℚ) < (len : ℚ) := by exact_mod_cast hlen
  have hmul : r * (len : ℚ) < (len : ℚ) := by nlinarith
  have hnn : 0 ≤ r * (len : ℚ) := mul_nonneg h0 hl.le
  unfold randIndex
  exact_mod_cast (Nat.floor_lt hnn).2 hmul

/-- `getD` at an in-range index is a member of the list. -/
theorem getD_mem_of_lt {α : Type} (l : List α) (i : ℕ) (d : α)
    (h : i < l.length) : l.getD i d ∈ l := by
  induction l generalizing i with
  | nil => simp at h
  | cons a t ih =>
    cases i with
    | zero => simp [List.getD]
    | succ j =>
      have : t.getD j d ∈ t := ih j (by simpa using h)
      simp [List.getD] at this ⊢
      right
      simpa [List.getD] using this

/-! Concrete instances used by witnesses and counterexamples. -/

/-- A concrete `JsMath` stub (the claims do not depend on the analytic
values of the trigonometric functions). -/
def mathW : JsMath := { cos := fun _ => 1, sin := fun _ => 0, pi := 3 }

/-- A concrete random stream sitting at `1/2`. -/
def randW : ℕ → ℚ := fun _ => 1/2

/-- A concrete particle with a one-tick budget whose `y` never reaches
the viewport height under `mathW` (its `sin` is `0` and gravity is
`0`). -/
def pN1 : Particle :=
  { x := 0, y := 0, wobble := 0, wobbleSpeed := 0.06, velocity := 1
    angle2D := 0, tiltAngle := 0
    color := { r := some 1, g := some 2, b := some 3 }
    shape := Shape.square, tick := 0, totalTicks := 1, decay := 0.9
    drift := 0, random := 2, tiltSin := 0, tiltCos := 0, wobbleX := 0
    wobbleY := 0, gravity := 0, ovalScalar := 0.6, scalar := 1
    flat := false }

/-- Like `pN1` but with a two-tick budget. -/
def pN2 : Particle := { pN1 with totalTicks := 2 }

/-- Like `pN1` but flat. -/
def pFlat : Particle := { pN1 with flat := true, totalTicks := 50 }

/-- Options with zero spread, for the C4 witness. -/
def optsS0 : ResolvedOptions := { defaults with spread := 0 }

/-- C10: `updateParticle` leaves `angle2D`, `wobbleSpeed`, `decay`,
`drift`, `gravity`, `totalTicks`, `scalar`, `ovalScalar`, `flat`,
`color` and `shape` unchanged — a particle's direction angle and
per-tick force parameters are fixed at creation; gravity and drift act
on the position only, never on the stored velocity or direction. -/
theorem c10_update_preserves_parameters (m : JsMath) (r H : ℚ)
    (p : Particle) :
    ((updateParticle m r H p).1).angle2D = p.angle2D ∧
    ((updateParticle m r H p).1).wobbleSpeed = p.wobbleSpeed ∧
    ((updateParticle m r H p).1).decay = p.decay ∧
    ((updateParticle m r H p).1).drift = p.drift ∧
    ((updateParticle m r H p).1).gravity = p.gravity ∧
    ((updateParticle m r H p).1).totalTicks = p.totalTicks ∧
    ((updateParticle m r H p).1).scalar = p.scalar ∧
    ((updateParticle m r H p).1).ovalScalar = p.ovalScalar ∧
    ((updateParticle m r H p).1).flat = p.flat ∧
    ((updateParticle m r H p).1).color = p.color ∧
    ((updateParticle m r H p).1).shape = p.shape := by
  cases hp : p.flat <;> simp [updateParticle, hp]

/-- C6: after `k` update calls the velocity equals
`v0 * d ^ k` exactly (gravity and drift never touch the stored
velocity), and for `0 < d < 1` the velocity magnitude is monotonically
non-increasing over successive updates. -/
theorem c6_velocity_decay (m : JsMath) (rand : ℕ → ℚ) (H : ℚ)
    (p : Particle) (k : ℕ) :
    (updates m rand H p k).velocity = p.velocity * p.decay ^ k ∧
    (0 < p.decay → p.decay < 1 →
      |(updates m rand H p (k + 1)).velocity| ≤
        |(updates m rand H p k).velocity|) := by
  refine ⟨updates_velocity m rand H p k, fun h0 h1 => ?_⟩
  rw [updates_velocity m rand H p (k + 1), updates_velocity m rand H p k,
    abs_mul, abs_mul, abs_pow, abs_pow, abs_of_pos h0]
  have hle : p.decay ^ (k + 1) ≤ p.decay ^ k :=
    pow_le_pow_of_le_one h0.le h1.le (Nat.le_succ k)
  exact mul_le_mul_of_nonneg_left hle (abs_nonneg _)

/-- Witness for C6 at a concrete particle with decay `0.9` and `k = 2`. -/
theorem c6_witness :
    (updates mathW randW 100 pN1 2).velocity = pN1.velocity * pN1.decay ^ 2 ∧
    |(updates mathW randW 100 pN1 3).velocity| ≤
      |(updates mathW randW 100 pN1 2).velocity| :=
  ⟨(c6_velocity_decay mathW randW 100 pN1 2).1,
    (c6_velocity_decay mathW randW 100 pN1 2).2 (by norm_num [pN1])
      (by norm_num [pN1])⟩

/-- C7: for a flat particle every update call pins `wobble` to `0` and
sets `wobbleX` / `wobbleY` to the particle's current (post-move)
position plus `10 * scalar`, on every tick and independently of the
tick count. -/
theorem c7_flat_wobble (m : JsMath) (rand : ℕ → ℚ) (H : ℚ) (p : Particle)
    (hp : p.flat = true) (k : ℕ) :
    (updates m rand H p (k + 1)).wobble = 0 ∧
    (updates m rand H p (k + 1)).wobbleX =
      (updates m rand H p (k + 1)).x + 10 * p.scalar ∧
    (updates m rand H p (k + 1)).wobbleY =
      (updates m rand H p (k + 1)).y + 10 * p.scalar := by
  have hf : (updates m rand H p k).flat = true := by
    rw [updates_flat]; exact hp
  have hs : (updates m rand H p k).scalar = p.scalar :=
    updates_scalar m rand H p k
  have h := updateParticle_flat_wobble m (rand k) H (updates m rand H p k) hf
  rw [hs] at h
  exact h

/-- Witness for C7 at a concrete flat particle and the first call. -/
theorem c7_witness :
    (updates mathW randW 100 pFlat 1).wobble = 0 ∧
    (updates mathW randW 100 pFlat 1).wobbleX =
      (updates mathW randW 100 pFlat 1).x + 10 * pFlat.scalar ∧
    (updates mathW randW 100 pFlat 1).wobbleY =
      (updates mathW randW 100 pFlat 1).y + 10 * pFlat.scalar :=
  c7_flat_wobble mathW randW 100 pFlat rfl 0

/-- C4: the initial direction is exactly
`-angleRadians + (0.5 * spreadRadians - uniform(0, spreadRadians))`,
and with `spread = 0` every particle of a factory call has the
identical direction `-angleRadians`, independent of the random
draws. -/
theorem c4_angle2D (m : JsMath) (rand : ℕ → ℚ) (o : ResolvedOptions) :
    (createParticle m rand o).angle2D =
      -(o.angle * (m.pi / 180)) +
        (0.5 * (o.spread * (m.pi / 180)) -
          rand 3 * (o.spread * (m.pi / 180))) ∧
    (o.spread = 0 → ∀ rand' : ℕ → ℚ,
      (createParticle m rand' o).angle2D = -(o.angle * (m.pi / 180))) := by
  constructor
  · rfl
  · intro h rand'
    simp [createParticle, h]

/-- Witness for C4 at zero spread. -/
theorem c4_witness :
    (createParticle mathW randW optsS0).angle2D =
      -(optsS0.angle * (mathW.pi / 180)) :=
  (c4_angle2D mathW randW optsS0).2 rfl randW

/-- The boolean of call `k+1`, written through the liveness data of
the state before the call and the `y` after it. -/
theorem callResult_eq (m : JsMath) (rand : ℕ → ℚ) (H : ℚ) (p : Particle)
    (k : ℕ) :
    callResult m rand H p k =
      (decide ((updates m rand H p k).tick <
        (updates m rand H p k).totalTicks) &&
       decide ((updates m rand H p (k + 1)).y < H)) := by
  rw [callResult, updateParticle_snd]
  congr 1
  rw [decide_eq_decide]
  constructor
  · intro h
    rw [updates, updateParticle_y]
    exact h
  · intro h
    rw [updates, updateParticle_y] at h
    exact h

/-- C1 counterexample: the particle `pN1` has `totalTicks = 1` and its
`y` stays below the viewport height `100` throughout, yet the first
`updateParticle` call does NOT return `false` — the claim predicts it
is reported dead exactly at call `N = 1`.  The source's
`particle.tick++ < particle.totalTicks` compares the PRE-increment
tick, so death only fires at call `N + 1`. -/
theorem c1_counterexample :
    callResult mathW randW 100 pN1 0 = true ∧
    ¬ (callResult mathW randW 100 pN1 0 = false) := by
  have h : callResult mathW randW 100 pN1 0 = true := by
    norm_num [callResult, updates, updateParticle, mathW, randW, pN1]
  exact ⟨h, by rw [h]; simp⟩

/-- C1 (amended): for a particle with `tick = 0` and `totalTicks = N ≥ 1`
whose `y` stays below the viewport height through the first `N` calls,
`updateParticle` returns `true` for calls `1 .. N` and the particle is
reported dead exactly at call `N + 1` — the liveness predicate
`tick < totalTicks` is evaluated on the pre-increment tick. -/
theorem c1_liveness_amended (m : JsMath) (rand : ℕ → ℚ) (H : ℚ)
    (p : Particle) (N : ℕ) (h0 : p.tick = 0) (hT : p.totalTicks = (N : ℚ))
    ( _hN : 1 ≤ N)
    (hy : ∀ k : ℕ, k < N → (updates m rand H p (k + 1)).y < H) :
    (∀ k : ℕ, k < N → callResult m rand H p k = true) ∧
    callResult m rand H p N = false := by
  have htick : ∀ j : ℕ, (updates m rand H p j).tick = (j : ℚ) := by
    intro j; rw [updates_tick, h0, zero_add]
  have htot : ∀ j : ℕ, (updates m rand H p j).totalTicks = (N : ℚ) := by
    intro j; rw [updates_totalTicks, hT]
  constructor
  · intro k hk
    rw [callResult_eq, htick k, htot k]
    have h1 : (k : ℚ) < (N : ℚ) := by exact_mod_cast hk
    simp [h1, hy k hk]
  · rw [callResult_eq, htick N, htot N]
    simp

/-- Witness for C1 (amended) with `N = 1` at a concrete particle. -/
theorem c1_witness :
    (∀ k : ℕ, k < 1 → callResult mathW randW 100 pN1 k = true) ∧
    callResult mathW randW 100 pN1 1 = false := by
  refine c1_liveness_amended mathW randW 100 pN1 1 rfl ?_ le_rfl ?_
  · norm_num [pN1]
  · intro k hk
    obtain rfl : k = 0 := by omega
    norm_num [updates, updateParticle, mathW, randW, pN1]

/-- C5: a particle reported alive by call `k+1` is rendered with
opacity exactly `1 - (k+1)/totalTicks`; that opacity is never negative,
and it strictly decreases from one frame to the next. -/
theorem c5_opacity (m : JsMath) (rand : ℕ → ℚ) (H : ℚ) (p : Particle)
    (N : ℕ) (h0 : p.tick = 0) (hT : p.totalTicks = (N : ℚ)) (hN : 1 ≤ N) :
    ∀ k : ℕ, callResult m rand H p k = true →
      renderOpacity (updates m rand H p (k + 1)) =
        1 - ((k + 1 : ℕ) : ℚ) / (N : ℚ) ∧
      0 ≤ renderOpacity (updates m rand H p (k + 1)) ∧
      renderOpacity (updates m rand H p (k + 2)) <
        renderOpacity (updates m rand H p (k + 1)) := by
  intro k hk
  have htick : ∀ j : ℕ, (updates m rand H p j).tick = (j : ℚ) := by
    intro j; rw [updates_tick, h0, zero_add]
  have htot : ∀ j : ℕ, (updates m rand H p j).totalTicks = (N : ℚ) := by
    intro j; rw [updates_totalTicks, hT]
  have hNQ : (0 : ℚ) < (N : ℚ) := by
    have : 0 < N := hN
    exact_mod_cast this
  have hop : ∀ j : ℕ, renderOpacity (updates m rand H p j) =
      1 - (j : ℚ) / (N : ℚ) := by
    intro j
    simp [renderOpacity, htick j, htot j]
  rw [callResult_eq] at hk
  rw [Bool.and_eq_true] at hk
  have h1 : (updates m rand H p k).tick <
      (updates m rand H p k).totalTicks := of_decide_eq_true hk.1
  rw [htick k, htot k] at h1
  have hkN : k < N := by exact_mod_cast h1
  refine ⟨hop (k + 1), ?_, ?_⟩
  · rw [hop (k + 1)]
    have hle : ((k + 1 : ℕ) : ℚ) ≤ (N : ℚ) := by exact_mod_cast hkN
    have hdiv : ((k + 1 : ℕ) : ℚ) / (N : ℚ) ≤ 1 := (div_le_one hNQ).2 hle
    linarith
  · rw [hop (k + 1), hop (k + 2)]
    have hlt : ((k + 1 : ℕ) : ℚ) / (N : ℚ) < ((k + 2 : ℕ) : ℚ) / (N : ℚ) := by
      rw [div_lt_div_iff_of_pos_right hNQ]
      push_cast
      linarith
    linarith

/-- Witness for C5 at a concrete two-tick particle and its first
rendered frame. -/
theorem c5_witness :
    renderOpacity (updates mathW randW 100 pN2 1) =
      1 - ((1 : ℕ) : ℚ) / ((2 : ℕ) : ℚ) ∧
    0 ≤ renderOpacity (updates mathW randW 100 pN2 1) ∧
    renderOpacity (updates mathW randW 100 pN2 2) <
      renderOpacity (updates mathW randW 100 pN2 1) :=
  c5_opacity mathW randW 100 pN2 2 rfl (by norm_num [pN2, pN1])
    (by norm_num) 0
    (by norm_num [callResult, updates, updateParticle, mathW, randW, pN2, pN1])

/-- Two-colour palette options for the C2 counterexample. -/
def optsCX : ResolvedOptions := { defaults with colors := ["#010203", "#040506"] }

/-- Draws that select palette entry 0 for the red and blue channels and
entry 1 for the green channel. -/
def randCX : ℕ → ℚ := fun n => if n = 6 then 1/2 else 0

/-- C2 counterexample: with palette `["#010203", "#040506"]` and draws
picking entry 0 for red/blue and entry 1 for green, the created
particle's colour is `(1, 5, 3)`, which no single palette entry
provides — the source draws a fresh palette entry for every channel,
so in general no one entry supplies all three of r, g and b. -/
theorem c2_counterexample :
    ¬ ∃ c ∈ optsCX.colors,
      (createParticle mathW randCX optsCX).color.r =
        jsParseIntHex (jsSlice c 1 3) ∧
      (createParticle mathW randCX optsCX).color.g =
        jsParseIntHex (jsSlice c 3 5) ∧
      (createParticle mathW randCX optsCX).color.b =
        jsParseIntHex (jsSlice c 5 7) := by
  have h5 : randIndex (randCX 5) 2 = 0 := by
    norm_num [randCX, randIndex]
  have h6 : randIndex (randCX 6) 2 = 1 := by
    norm_num [randCX, randIndex]
  have h7 : randIndex (randCX 7) 2 = 0 := by
    norm_num [randCX, randIndex]
  have hcol : (createParticle mathW randCX optsCX).color =
      { r := some 1, g := some 5, b := some 3 } := by
    simp only [createParticle, optsCX, defaults, List.length_cons,
      List.length_nil, Nat.zero_add, Nat.reduceAdd, h5, h6, h7]
    decide
  rintro ⟨c, hc, hr, hg, hb⟩
  rw [hcol] at hr hg hb
  simp only [optsCX, defaults, List.mem_cons, List.not_mem_nil, or_false] at hc
  rcases hc with rfl | rfl
  · exact absurd hg (by decide)
  · exact absurd hr (by decide)

/-- C2 (amended): each colour channel is taken from an independently
uniformly sampled palette entry — for draws in `[0,1)` and a non-empty
palette there exist palette entries (possibly three different ones)
supplying the particle's r, g and b channels respectively; the claim's
single common entry exists only when the three draws select the same
index (e.g. for a one-colour palette). -/
theorem c2_color_amended (m : JsMath) (rand : ℕ → ℚ) (o : ResolvedOptions)
    (hr : ∀ n, 0 ≤ rand n ∧ rand n < 1) (hne : o.colors ≠ []) :
    (∃ c ∈ o.colors,
      (createParticle m rand o).color.r = jsParseIntHex (jsSlice c 1 3)) ∧
    (∃ c ∈ o.colors,
      (createParticle m rand o).color.g = jsParseIntHex (jsSlice c 3 5)) ∧
    (∃ c ∈ o.colors,
      (createParticle m rand o).color.b = jsParseIntHex (jsSlice c 5 7)) := by
  have hlen : 0 < o.colors.length := List.length_pos.2 hne
  refine ⟨⟨_, getD_mem_of_lt _ _ _
      (randIndex_lt _ _ (hr 5).1 (hr 5).2 hlen), rfl⟩,
    ⟨_, getD_mem_of_lt _ _ _
      (randIndex_lt _ _ (hr 6).1 (hr 6).2 hlen), rfl⟩,
    ⟨_, getD_mem_of_lt _ _ _
      (randIndex_lt _ _ (hr 7).1 (hr 7).2 hlen), rfl⟩⟩

/-- Witness for C2 (amended) on the default palette with draws `1/2`. -/
theorem c2_witness :
    (∃ c ∈ defaults.colors,
      (createParticle mathW randW defaults).color.r =
        jsParseIntHex (jsSlice c 1 3)) ∧
    (∃ c ∈ defaults.colors,
      (createParticle mathW randW defaults).color.g =
        jsParseIntHex (jsSlice c 3 5)) ∧
    (∃ c ∈ defaults.colors,
      (createParticle mathW randW defaults).color.b =
        jsParseIntHex (jsSlice c 5 7)) :=
  c2_color_amended mathW randW defaults
    (fun _ => ⟨by norm_num [randW], by norm_num [randW]⟩)
    (by simp [defaults])

/-- Draw stream sitting at `9/10`, for the C3 counterexample. -/
def randC3 : ℕ → ℚ := fun _ => 9/10

/-- C3 counterexample: the legitimate draw `9/10 ∈ [0,1)` produces the
pre-cap wobbleSpeed sample `0.14`, which lies outside the claimed
pre-cap range `[0.05, 0.11)`; the stored wobbleSpeed is the cap value
`0.11`. -/
theorem c3_counterexample :
    0 ≤ randC3 1 ∧ randC3 1 < 1 ∧
    ¬ (randC3 1 * 0.1 + 0.05 < (0.11 : ℚ)) ∧
    (createParticle mathW randC3 defaults).wobbleSpeed = 0.11 := by
  have hs : (createParticle mathW randC3 defaults).wobbleSpeed =
      min 0.11 (randC3 1 * 0.1 + 0.05) := rfl
  refine ⟨by norm_num [randC3], by norm_num [randC3],
    by norm_num [randC3], ?_⟩
  rw [hs, min_eq_left (by norm_num [randC3])]

/-- C3 (amended): wobble equals `10 * r₀`, so it is uniform over
`[0, 10)`; the pre-cap wobbleSpeed sample `r₁ * 0.1 + 0.05` ranges
uniformly over `[0.05, 0.15)` (not `[0.05, 0.11)`), and the stored
wobbleSpeed is that sample capped at `0.11`, hence always in
`[0.05, 0.11]`. -/
theorem c3_wobble_amended (m : JsMath) (rand : ℕ → ℚ) (o : ResolvedOptions)
    (h0 : 0 ≤ rand 0) (h0' : rand 0 < 1)
    (h1 : 0 ≤ rand 1) (h1' : rand 1 < 1) :
    (createParticle m rand o).wobble = rand 0 * 10 ∧
    0 ≤ (createParticle m rand o).wobble ∧
    (createParticle m rand o).wobble < 10 ∧
    (createParticle m rand o).wobbleSpeed =
      min 0.11 (rand 1 * 0.1 + 0.05) ∧
    0.05 ≤ rand 1 * 0.1 + 0.05 ∧
    rand 1 * 0.1 + 0.05 < 0.15 ∧
    0.05 ≤ (createParticle m rand o).wobbleSpeed ∧
    (createParticle m rand o).wobbleSpeed ≤ 0.11 := by
  have hw : (createParticle m rand o).wobble = rand 0 * 10 := rfl
  have hs : (createParticle m rand o).wobbleSpeed =
      min 0.11 (rand 1 * 0.1 + 0.05) := rfl
  refine ⟨hw, ?_, ?_, hs, ?_, ?_, ?_, ?_⟩
  · rw [hw]; linarith
  · rw [hw]; linarith
  · linarith
  · linarith
  · rw [hs, le_min_iff]
    constructor
    · norm_num
    · linarith
  · rw [hs]
    exact min_le_left _ _

/-- Witness for C3 (amended) at draws `1/2`. -/
theorem c3_witness :
    (createParticle mathW randW defaults).wobble = randW 0 * 10 ∧
    0 ≤ (createParticle mathW randW defaults).wobble ∧
    (createParticle mathW randW defaults).wobble < 10 ∧
    (createParticle mathW randW defaults).wobbleSpeed =
      min 0.11 (randW 1 * 0.1 + 0.05) ∧
    0.05 ≤ randW 1 * 0.1 + 0.05 ∧
    randW 1 * 0.1 + 0.05 < 0.15 ∧
    0.05 ≤ (createParticle mathW randW defaults).wobbleSpeed ∧
    (createParticle mathW randW defaults).wobbleSpeed ≤ 0.11 :=
  c3_wobble_amended mathW randW defaults (by norm_num [randW])
    (by norm_num [randW]) (by norm_num [randW]) (by norm_num [randW])

/-- Closed form of `reset`: the canvas is always gone afterwards, the
context survives only if no canvas existed (the source nulls `ctx` only
inside the `if (canvas)` block), the particle set is empty and no frame
is scheduled. -/
theorem reset_eq (s : SimState) :
    reset s = { canvas := false, ctx := !s.canvas && s.ctx,
                particles := [], animationFrame := none } := by
  rcases s with ⟨c, x, ps, af⟩
  cases c <;> cases af <;> rfl

/-- C8: starting from Idle, appending particles through the public
entry point and then resetting leaves the state exactly Idle, for
every environment, host math and options; `reset` fixes Idle and is
idempotent. -/
theorem c8_reset_roundtrip :
    (∀ (env : Env) (m : JsMath) (opts : OptionsIn),
      reset (confetti env m opts idleState).1 = idleState) ∧
    reset idleState = idleState ∧
    (∀ s : SimState, reset (reset s) = reset s) := by
  refine ⟨?_, by rw [reset_eq]; rfl, ?_⟩
  · intro env m opts
    simp only [confetti]
    split
    · rw [reset_eq]; rfl
    · split
      · rw [reset_eq]; rfl
      · split
        · rw [reset_eq]; rfl
        · rw [reset_eq]; rfl
  · intro s
    simp [reset_eq]

/-- C9: with no cached context and a failing context probe, the entry
point returns `null`, leaves the particle set unchanged and schedules
no frame (the embedding is a total function, so nothing is raised);
only the canvas allocation of `createCanvas()` has happened. -/
theorem c9_no_context (env : Env) (m : JsMath) (opts : OptionsIn)
    (s : SimState) (hw : env.hasWindow = true)
    (hrm : ((mergeOptions opts).disableForReducedMotion &&
      env.reducedMotionMatches) = false)
    (hctx : s.ctx = false) (hav : env.ctxAvailable = false) :
    confetti env m opts s =
      ({ s with canvas := true }, ConfettiResult.nullResult) ∧
    (confetti env m opts s).2 = ConfettiResult.nullResult ∧
    (confetti env m opts s).1.particles = s.particles ∧
    (confetti env m opts s).1.animationFrame = s.animationFrame := by
  have h : confetti env m opts s =
      ({ s with canvas := true }, ConfettiResult.nullResult) := by
    simp [confetti, hw, hrm, hctx, hav]
  exact ⟨h, by rw [h], by rw [h], by rw [h]⟩

/-- A concrete environment whose 2D-context probe fails. -/
def envNoCtx : Env :=
  { hasWindow := true, reducedMotionMatches := false, ctxAvailable := false,
    innerWidth := 100, innerHeight := 100, rand := randW, frameId := 1 }

/-- Witness for C9 from the Idle state. -/
theorem c9_witness :
    confetti envNoCtx mathW {} idleState =
      ({ idleState with canvas := true }, ConfettiResult.nullResult) ∧
    (confetti envNoCtx mathW {} idleState).2 = ConfettiResult.nullResult ∧
    (confetti envNoCtx mathW {} idleState).1.particles =
      idleState.particles ∧
    (confetti envNoCtx mathW {} idleState).1.animationFrame =
      idleState.animationFrame :=
  c9_no_context envNoCtx mathW {} idleState rfl
    (by simp [envNoCtx]) rfl rfl

end Confetti
